import Mathlib

/-!
Shallow embedding of the `text2speech` HTTP service (src/text2speech.js).

The service keeps a flat output directory of generated audio files, one file
per MD5 fingerprint of a request body, and exposes create / fetch / delete /
list endpoints.  We embed:

* the MD5 hash (`crypto.createHash("md5")`) as executable `Nat` arithmetic
  modulo `2^32`;
* `JSON.stringify(req.body)` for a parsed JSON object whose fields are
  strings (the documented API fields `text` and `voice` are strings); a body
  is the ordered list of its key/value pairs, keys distinct, in the insertion
  order produced by `JSON.parse`;
* the cache directory as a `Finset String` of file keys (the filesystem
  guarantees at most one entry per name; `key` stands for the file
  `key + ".mp3"`);
* each route handler as a pure transition function on the cache, with the
  external Azure synthesis call (an external collaborator, not code of this
  repository) abstracted as a `SynthOutcome` argument: the provider either
  reports `SynthesizingAudioCompleted` (the audio file is produced under the
  requested name), a different result reason, or invokes the error callback.
-/

namespace T2S

/-! ### 32-bit words as `Nat` modulo `2^32` -/

def w32 : Nat := 4294967296

def mask32 : Nat := 4294967295

/-- Left-rotation of a 32-bit word. -/
def rotl32 (x n : Nat) : Nat := ((x <<< n) ||| (x >>> (32 - n))) % w32

/-! ### MD5 (RFC 1321), as used by `crypto.createHash("md5")` -/

/-- The 64 MD5 sine-derived constants `⌊|sin(i+1)| · 2^32⌋`. -/
def md5K : List Nat :=
  [3614090360, 3905402710, 606105819, 3250441966, 4118548399, 1200080426, 2821735955, 4249261313,
   1770035416, 2336552879, 4294925233, 2304563134, 1804603682, 4254626195, 2792965006, 1236535329,
   4129170786, 3225465664, 643717713, 3921069994, 3593408605, 38016083, 3634488961, 3889429448,
   568446438, 3275163606, 4107603335, 1163531501, 2850285829, 4243563512, 1735328473, 2368359562,
   4294588738, 2272392833, 1839030562, 4259657740, 2763975236, 1272893353, 4139469664, 3200236656,
   681279174, 3936430074, 3572445317, 76029189, 3654602809, 3873151461, 530742520, 3299628645,
   4096336452, 1126891415, 2878612391, 4237533241, 1700485571, 2399980690, 4293915773, 2240044497,
   1873313359, 4264355552, 2734768916, 1309151649, 4149444226, 3174756917, 718787259, 3951481745]

/-- The 64 MD5 per-round left-rotation amounts. -/
def md5S : List Nat :=
  [7, 12, 17, 22, 7, 12, 17, 22, 7, 12, 17, 22, 7, 12, 17, 22,
   5, 9, 14, 20, 5, 9, 14, 20, 5, 9, 14, 20, 5, 9, 14, 20,
   4, 11, 16, 23, 4, 11, 16, 23, 4, 11, 16, 23, 4, 11, 16, 23,
   6, 10, 15, 21, 6, 10, 15, 21, 6, 10, 15, 21, 6, 10, 15, 21]

/-- One MD5 round on state `(a, b, c, d)` with message words `M`. -/
def md5Round (M : List Nat) (st : Nat × Nat × Nat × Nat) (i : Nat) :
    Nat × Nat × Nat × Nat :=
  let (a, b, c, d) := st
  let fg : Nat × Nat :=
    if i < 16 then ((b &&& c) ||| ((b ^^^ mask32) &&& d), i)
    else if i < 32 then ((d &&& b) ||| ((d ^^^ mask32) &&& c), (5 * i + 1) % 16)
    else if i < 48 then (b ^^^ c ^^^ d, (3 * i + 5) % 16)
    else (c ^^^ (b ||| (d ^^^ mask32)), (7 * i) % 16)
  let f := (fg.1 + a + md5K.getD i 0 + M.getD fg.2 0) % w32
  (d, (b + rotl32 f (md5S.getD i 0)) % w32, b, c)

/-- Process one 64-byte chunk (given as 16 little-endian words). -/
def md5Chunk (h : Nat × Nat × Nat × Nat) (M : List Nat) : Nat × Nat × Nat × Nat :=
  let (a0, b0, c0, d0) := h
  let r := (List.range 64).foldl (md5Round M) (a0, b0, c0, d0)
  ((a0 + r.1) % w32, (b0 + r.2.1) % w32, (c0 + r.2.2.1) % w32, (d0 + r.2.2.2) % w32)

/-- Split a byte list into 64-byte chunks (the input is already padded, so
its length is a multiple of 64). -/
def toChunks (l : List Nat) : List (List Nat) :=
  (List.range (l.length / 64)).map fun i => (l.drop (64 * i)).take 64

/-- The 16 little-endian 32-bit words of a 64-byte chunk. -/
def words16 (blk : List Nat) : List Nat :=
  (List.range 16).map fun j =>
    blk.getD (4 * j) 0 + 256 * blk.getD (4 * j + 1) 0 +
      65536 * blk.getD (4 * j + 2) 0 + 16777216 * blk.getD (4 * j + 3) 0

/-- MD5 padding: `0x80`, zeros to 56 mod 64, then the bit length as 8 LE bytes. -/
def md5Pad (msg : List Nat) : List Nat :=
  msg ++ [128] ++ List.replicate ((119 - msg.length % 64) % 64) 0 ++
    ((List.range 8).map fun i => (8 * msg.length) % 18446744073709551616 / 256 ^ i % 256)

/-- The MD5 digest of a byte list, as four 32-bit state words. -/
def md5Words (msg : List Nat) : Nat × Nat × Nat × Nat :=
  ((toChunks (md5Pad msg)).map words16).foldl md5Chunk
    (1732584193, 4023233417, 2562383102, 271733878)

/-- Lower-case hex digit for `n < 16`. -/
def hexChar (n : Nat) : Char :=
  if n < 10 then Char.ofNat (48 + n) else Char.ofNat (87 + n)

/-- Two lower-case hex digits of a byte. -/
def byteHex (b : Nat) : List Char := [hexChar (b / 16 % 16), hexChar (b % 16)]

/-- The four bytes of a 32-bit word, little-endian. -/
def wordBytesLE (x : Nat) : List Nat :=
  [x % 256, x / 256 % 256, x / 65536 % 256, x / 16777216 % 256]

/-- The 16 digest bytes of MD5 (state words serialized little-endian). -/
def md5Bytes (msg : List Nat) : List Nat :=
  let w := md5Words msg
  [w.1, w.2.1, w.2.2.1, w.2.2.2].flatMap wordBytesLE

/-- UTF-8 encoding of one character, as byte values. -/
def charUTF8 (c : Char) : List Nat :=
  let n := c.toNat
  if n < 128 then [n]
  else if n < 2048 then [192 + n / 64, 128 + n % 64]
  else if n < 65536 then [224 + n / 4096, 128 + n / 64 % 64, 128 + n % 64]
  else [240 + n / 262144, 128 + n / 4096 % 64, 128 + n / 64 % 64, 128 + n % 64]

/-- UTF-8 bytes of a string (what `hash.update(string)` digests in Node). -/
def strBytes (s : String) : List Nat := s.data.flatMap charUTF8

/-- `crypto.createHash("md5").update(s).digest("hex")`. -/
def md5Hex (s : String) : String := ⟨(md5Bytes (strBytes s)).flatMap byteHex⟩

/-! ### `JSON.stringify` of the parsed request body

A request body is the parsed JSON object: an ordered association list of
string-valued fields, keys distinct, in the client's field order. -/

/-- A parsed JSON request body: fields in order, values are strings. -/
abbrev Body := List (String × String)

/-- `JSON.stringify` escaping of one character inside a string literal. -/
def jsonEscapeChar (c : Char) : String :=
  if c = '"' then "\\\""
  else if c = '\\' then "\\\\"
  else if c = '\n' then "\\n"
  else if c = '\r' then "\\r"
  else if c = '\t' then "\\t"
  else if c.toNat = 8 then "\\b"
  else if c.toNat = 12 then "\\f"
  else if c.toNat < 32 then "\\u00" ++ ⟨[hexChar (c.toNat / 16), hexChar (c.toNat % 16)]⟩
  else String.singleton c

/-- `JSON.stringify` of a string value. -/
def jsonString (s : String) : String :=
  "\"" ++ String.join (s.data.map jsonEscapeChar) ++ "\""

/-- `JSON.stringify(req.body)`: fields serialized in insertion order. -/
def jsonStringify (b : Body) : String :=
  "\x7b" ++ String.intercalate "," (b.map fun kv => jsonString kv.1 ++ ":" ++ jsonString kv.2) ++ "\x7d"

/-- `req.body.text` / `req.body.voice`: field lookup in the parsed object. -/
def getField (b : Body) (k : String) : Option String := b.lookup k

/-! ### The service state and the route handlers -/

/-- `const FILE_LIMIT = 100;` -/
def FILE_LIMIT : Nat := 100

/-- The output directory: the set of file keys currently stored (each key `k`
names the file `k + ".mp3"`; filenames are unique, so a `Finset`). -/
abbrev CacheDir := Finset String

/-- `fileWithKeyExists(fileKey)`: `accessSync` succeeds iff the file is in the
directory; every failure is caught and reported as `false`. -/
def fileWithKeyExists (cache : CacheDir) (fileKey : String) : Bool :=
  decide (fileKey ∈ cache)

/-- `hasGeneratedFileLimitBeenReached()`: `readdirSync(dir).length > FILE_LIMIT`. -/
def hasGeneratedFileLimitBeenReached (cache : CacheDir) : Bool :=
  decide (FILE_LIMIT < cache.card)

/-- `md5Hash()`: MD5 of `JSON.stringify(req.body)`, in hex. -/
def md5Hash (b : Body) : String := md5Hex (jsonStringify b)

/-- `check('text').notEmpty().isLength({ max: 100 })`: the `text` field must be
present, non-empty and at most 100 characters long. -/
def textFieldValid (b : Body) : Bool :=
  match getField b "text" with
  | none => false
  | some t => !(t == "") && t.length ≤ 100

/-- `check('voice').optional().isString()`: `voice` is optional, and when
present need only be a string.  In this embedding every present field value is
a string, so the check never fails: the code imposes no length bound on
`voice`. -/
def voiceFieldValid (b : Body) : Bool :=
  match getField b "voice" with
  | none => true
  | some _ => true

/-- `validationResult(req).isEmpty()` for the POST route's two checks. -/
def requestValid (b : Body) : Bool := textFieldValid b && voiceFieldValid b

/-- Outcome of the external Azure synthesis call (`speakTextAsync`): the
result callback fires with `SynthesizingAudioCompleted`, or with some other
result reason, or the error callback fires. -/
inductive SynthOutcome
  | completed
  | otherReason
  | errorCallback
deriving DecidableEq

/-- HTTP response of `POST /text2speech`. -/
inductive CreateResponse
  | invalidInput
  | success (fileKey : String)
  | capacityExceeded
  | synthesisFailed
deriving DecidableEq

/-- Result of one `POST /text2speech` request: response, resulting directory,
and whether the synthesis gateway was invoked. -/
structure CreateResult where
  response : CreateResponse
  cache : CacheDir
  synthCalled : Bool
deriving DecidableEq

/-- `app.post('/text2speech')` with `generateSpeechFromText()`: validate; on
success hash the body, short-circuit on an existing file, then the capacity
guard, then synthesize.  On `SynthesizingAudioCompleted` the audio file exists
under the computed name (the gateway writes it) and the key is returned; on
any other outcome a 500 is returned and no entry is recorded. -/
def postText2Speech (cache : CacheDir) (b : Body) (synth : SynthOutcome) :
    CreateResult :=
  if requestValid b then
    let audioFileName := md5Hash b
    if fileWithKeyExists cache audioFileName then
      ⟨.success audioFileName, cache, false⟩
    else if hasGeneratedFileLimitBeenReached cache then
      ⟨.capacityExceeded, cache, false⟩
    else
      match synth with
      | .completed => ⟨.success audioFileName, insert audioFileName cache, true⟩
      | .otherReason => ⟨.synthesisFailed, cache, true⟩
      | .errorCallback => ⟨.synthesisFailed, cache, true⟩
  else ⟨.invalidInput, cache, false⟩

/-- validator.js `isMD5`: the token matches `/^[a-f0-9]{32}$/`. -/
def isMD5 (s : String) : Bool :=
  s.length == 32 && s.data.all fun c => ('0' ≤ c && c ≤ '9') || ('a' ≤ c && c ≤ 'f')

/-- HTTP response of the keyed GET/DELETE routes. -/
inductive KeyedResponse
  | ok
  | badRequest
deriving DecidableEq

/-- `app.get('/text2speech/:fileKey')`: `check('fileKey').isMD5().bail()
.custom(fileWithKeyExists)`; serve the file on success, else 400.  The
directory is never modified. -/
def getText2Speech (cache : CacheDir) (fileKey : String) :
    KeyedResponse × CacheDir :=
  if isMD5 fileKey && fileWithKeyExists cache fileKey then (.ok, cache)
  else (.badRequest, cache)

/-- `app.delete('/text2speech/:fileKey')`: same validation chain; on success
`unlinkSync` removes the file and a 200 is returned, else 400. -/
def deleteText2Speech (cache : CacheDir) (fileKey : String) :
    KeyedResponse × CacheDir :=
  if isMD5 fileKey && fileWithKeyExists cache fileKey then (.ok, cache.erase fileKey)
  else (.badRequest, cache)

/-- `app.get('/text2speech')`: list all stored keys (`readdirSync` with the
extension stripped); the directory is never modified. -/
def listText2Speech (cache : CacheDir) : Finset String × CacheDir :=
  (cache, cache)

/-- One API operation that can touch the cache directory. -/
inductive ApiOp
  | create (b : Body) (synth : SynthOutcome)
  | remove (fileKey : String)
deriving DecidableEq

/-- Effect of one operation on the directory. -/
def applyOp (cache : CacheDir) : ApiOp → CacheDir
  | .create b synth => (postText2Speech cache b synth).cache
  | .remove k => (deleteText2Speech cache k).2

/-- Effect of a sequence of operations on the directory. -/
def runOps (cache : CacheDir) (ops : List ApiOp) : CacheDir :=
  ops.foldl applyOp cache

/-! ### Concrete test fixtures -/

/-- `{"text":"hi","voice":"v"}` — a valid request body. -/
def bodyHi1 : Body := [("text", "hi"), ("voice", "v")]

/-- `{"voice":"v","text":"hi"}` — the same logical request (identical `text`
and `voice` fields) with the fields in the other order. -/
def bodyHi2 : Body := [("voice", "v"), ("text", "hi")]

/-- `{"text":"hi","voice":"a"}` — same text as `bodyHi1`, different voice. -/
def bodyVoiceA : Body := [("text", "hi"), ("voice", "a")]

/-- `{"text":"hi","voice":"b"}` — same text as `bodyVoiceA`, different voice. -/
def bodyVoiceB : Body := [("text", "hi"), ("voice", "b")]

/-- A 51-character voice identifier. -/
def voice51 : String := "aaaaaaaaaaaaaaaaaaaaaaaaaaaaaaaaaaaaaaaaaaaaaaaaaaa"

/-- A valid-text request whose `voice` is a string of 51 characters. -/
def bodyLongVoice : Body := [("text", "hello"), ("voice", voice51)]

/-- A body with no `text` field at all. -/
def bodyNoText : Body := [("voice", "v")]

/-- A directory holding exactly 100 (short, non-fingerprint) file keys. -/
def cache100 : CacheDir := ((List.range 100).map (fun n => toString n)).toFinset

/-- A directory holding exactly 101 (short, non-fingerprint) file keys. -/
def cache101 : CacheDir := ((List.range 101).map (fun n => toString n)).toFinset

set_option maxRecDepth 100000

/-! ### Helper lemmas -/

/-- Every hex digit produced by `hexChar` is a lower-case hex character. -/
theorem hexChar_hex : ∀ n < 16,
    (('0' ≤ hexChar n && hexChar n ≤ '9') || ('a' ≤ hexChar n && hexChar n ≤ 'f')) = true := by
  decide

/-- Both characters of `byteHex b` are lower-case hex characters. -/
theorem byteHex_hex (b : Nat) : ∀ c ∈ byteHex b,
    (('0' ≤ c && c ≤ '9') || ('a' ≤ c && c ≤ 'f')) = true := by
  intro c hc
  simp only [byteHex, List.mem_cons, List.not_mem_nil, or_false] at hc
  rcases hc with h | h <;> subst h <;> exact hexChar_hex _ (Nat.mod_lt _ (by omega))

/-- Hex-encoding a byte list doubles its length. -/
theorem length_flatMap_byteHex (l : List Nat) : (l.flatMap byteHex).length = 2 * l.length := by
  induction l with
  | nil => simp
  | cons a t ih => simp [byteHex, ih]; omega

/-- The MD5 digest is 16 bytes. -/
theorem md5Bytes_length (msg : List Nat) : (md5Bytes msg).length = 16 := by
  simp [md5Bytes, wordBytesLE]

/-- The hex MD5 digest is 32 characters long. -/
theorem md5Hex_length (s : String) : (md5Hex s).length = 32 := by
  show ((md5Bytes (strBytes s)).flatMap byteHex).length = 32
  rw [length_flatMap_byteHex, md5Bytes_length]

/-- The fingerprint of every body is 32 characters long. -/
theorem md5Hash_length (b : Body) : (md5Hash b).length = 32 :=
  md5Hex_length _

/-- Every fingerprint passes the validator's `isMD5` check. -/
theorem md5Hash_isMD5 (b : Body) : isMD5 (md5Hash b) = true := by
  have hlen : (md5Hash b).length = 32 := md5Hash_length b
  have hall : (md5Hash b).data.all
      (fun c => ('0' ≤ c && c ≤ '9') || ('a' ≤ c && c ≤ 'f')) = true := by
    rw [List.all_eq_true]
    intro c hc
    have : c ∈ (md5Bytes (strBytes (jsonStringify b))).flatMap byteHex := hc
    rw [List.mem_flatMap] at this
    obtain ⟨x, -, hx⟩ := this
    exact byteHex_hex x c hx
  simp [isMD5, hlen, hall]

/-- Strings of different lengths differ. -/
theorem ne_of_length_ne {s t : String} (h : s.length ≠ t.length) : s ≠ t :=
  fun he => h (he ▸ rfl)

/-- `cache100` holds exactly 100 entries. -/
theorem cache100_card : cache100.card = 100 := by decide

/-- `cache101` holds exactly 101 entries. -/
theorem cache101_card : cache101.card = 101 := by decide

/-- Every key in `cache100` is at most 3 characters long. -/
theorem cache100_short : ∀ x ∈ cache100, x.length ≤ 3 := by decide

/-- Every key in `cache101` is at most 3 characters long. -/
theorem cache101_short : ∀ x ∈ cache101, x.length ≤ 3 := by decide

/-- No fingerprint is stored in `cache100` (its keys are too short). -/
theorem md5Hash_not_mem_cache100 (b : Body) : md5Hash b ∉ cache100 := by
  intro h
  have := cache100_short _ h
  rw [md5Hash_length b] at this
  omega

/-- No fingerprint is stored in `cache101` (its keys are too short). -/
theorem md5Hash_not_mem_cache101 (b : Body) : md5Hash b ∉ cache101 := by
  intro h
  have := cache101_short _ h
  rw [md5Hash_length b] at this
  omega

/-- Reordering the two fields of the `hi`/`v` request changes the MD5
fingerprint (`20de1ce6…` vs `ded60ca6…`). -/
theorem hash_bodyHi_ne : md5Hash bodyHi1 ≠ md5Hash bodyHi2 := by decide

/-- The two requests differing only in voice have different fingerprints. -/
theorem hash_voiceAB_ne : md5Hash bodyVoiceA ≠ md5Hash bodyVoiceB := by decide

/-- The existence check is exactly directory membership. -/
theorem fileWithKeyExists_iff {cache : CacheDir} {k : String} :
    fileWithKeyExists cache k = true ↔ k ∈ cache := by
  simp [fileWithKeyExists]

/-- The existence check fails exactly on absent keys. -/
theorem fileWithKeyExists_eq_false {cache : CacheDir} {k : String} :
    fileWithKeyExists cache k = false ↔ k ∉ cache := by
  simp [fileWithKeyExists]

/-- The capacity guard fires exactly when the count strictly exceeds 100. -/
theorem limit_reached_iff {cache : CacheDir} :
    hasGeneratedFileLimitBeenReached cache = true ↔ FILE_LIMIT < cache.card := by
  simp [hasGeneratedFileLimitBeenReached]

/-- POST, branch 1: failed validation short-circuits to a 400. -/
theorem post_invalid {cache : CacheDir} {b : Body} {s : SynthOutcome}
    (h : requestValid b = false) :
    postText2Speech cache b s = ⟨.invalidInput, cache, false⟩ := by
  simp [postText2Speech, h]

/-- POST, branch 2: an existing file is returned directly, the gateway is not
invoked, regardless of the directory's size. -/
theorem post_hit {cache : CacheDir} {b : Body} {s : SynthOutcome}
    (hv : requestValid b = true) (he : fileWithKeyExists cache (md5Hash b) = true) :
    postText2Speech cache b s = ⟨.success (md5Hash b), cache, false⟩ := by
  simp [postText2Speech, hv, he]

/-- POST, branch 3: a cache miss over the file limit yields a 507 and no
synthesis call. -/
theorem post_capacity {cache : CacheDir} {b : Body} {s : SynthOutcome}
    (hv : requestValid b = true) (he : fileWithKeyExists cache (md5Hash b) = false)
    (hl : hasGeneratedFileLimitBeenReached cache = true) :
    postText2Speech cache b s = ⟨.capacityExceeded, cache, false⟩ := by
  simp [postText2Speech, hv, he, hl]

/-- POST, branch 4: a cache miss under the limit with a completed synthesis
stores the file and returns its key. -/
theorem post_completed {cache : CacheDir} {b : Body}
    (hv : requestValid b = true) (he : fileWithKeyExists cache (md5Hash b) = false)
    (hl : hasGeneratedFileLimitBeenReached cache = false) :
    postText2Speech cache b .completed =
      ⟨.success (md5Hash b), insert (md5Hash b) cache, true⟩ := by
  simp [postText2Speech, hv, he, hl]

/-- POST, branch 5: a cache miss under the limit whose synthesis fails (other
result reason, or the error callback) yields a 500 and stores nothing. -/
theorem post_failed {cache : CacheDir} {b : Body} {s : SynthOutcome}
    (hv : requestValid b = true) (he : fileWithKeyExists cache (md5Hash b) = false)
    (hl : hasGeneratedFileLimitBeenReached cache = false) (hs : s ≠ .completed) :
    postText2Speech cache b s = ⟨.synthesisFailed, cache, true⟩ := by
  cases s with
  | completed => exact absurd rfl hs
  | otherReason => simp [postText2Speech, hv, he, hl]
  | errorCallback => simp [postText2Speech, hv, he, hl]

/-- One operation never pushes the directory beyond `FILE_LIMIT + 1` files. -/
theorem applyOp_card_le {cache : CacheDir} (o : ApiOp)
    (h : cache.card ≤ FILE_LIMIT + 1) : (applyOp cache o).card ≤ FILE_LIMIT + 1 := by
  cases o with
  | create b s =>
    show (postText2Speech cache b s).cache.card ≤ FILE_LIMIT + 1
    cases hv : requestValid b with
    | false => rw [post_invalid hv]; exact h
    | true =>
      cases he : fileWithKeyExists cache (md5Hash b) with
      | true => rw [post_hit hv he]; exact h
      | false =>
        cases hl : hasGeneratedFileLimitBeenReached cache with
        | true => rw [post_capacity hv he hl]; exact h
        | false =>
          have hcount : cache.card ≤ FILE_LIMIT := by
            have : ¬ FILE_LIMIT < cache.card := fun hlt =>
              by rw [limit_reached_iff.mpr hlt] at hl; exact Bool.noConfusion hl
            omega
          cases s with
          | completed =>
            rw [post_completed hv he hl]
            calc (insert (md5Hash b) cache).card ≤ cache.card + 1 :=
                  Finset.card_insert_le _ _
              _ ≤ FILE_LIMIT + 1 := by omega
          | otherReason => rw [post_failed hv he hl (by simp)]; exact h
          | errorCallback => rw [post_failed hv he hl (by simp)]; exact h
  | remove k =>
    show (deleteText2Speech cache k).2.card ≤ FILE_LIMIT + 1
    rw [deleteText2Speech]
    split
    · exact le_trans Finset.card_erase_le h
    · exact h

/-- No operation sequence pushes the directory beyond `FILE_LIMIT + 1` files. -/
theorem runOps_card_le {cache : CacheDir} (ops : List ApiOp)
    (h : cache.card ≤ FILE_LIMIT + 1) : (runOps cache ops).card ≤ FILE_LIMIT + 1 := by
  induction ops generalizing cache with
  | nil => exact h
  | cons o t ih => exact ih (applyOp_card_le o h)

/-- The capacity guard does not fire at or below 100 files. -/
theorem limit_not_reached {cache : CacheDir} (h : cache.card ≤ FILE_LIMIT) :
    hasGeneratedFileLimitBeenReached cache = false := by
  simp only [hasGeneratedFileLimitBeenReached, decide_eq_false_iff_not, not_lt]
  exact h

/-- The `voice` check (`optional().isString()`) never fails: absent is
skipped, and a present value is a string by construction. -/
theorem voiceFieldValid_true (b : Body) : voiceFieldValid b = true := by
  unfold voiceFieldValid
  cases getField b "voice" <;> rfl

/-- Overall validation passes exactly when the `text` checks pass. -/
theorem requestValid_eq_text (b : Body) : requestValid b = textFieldValid b := by
  simp [requestValid, voiceFieldValid_true]

/-- On the full 100-entry directory, the valid cache-miss request still
proceeds to synthesis and stores a 101st file. -/
theorem post_cache100_hi1 :
    postText2Speech cache100 bodyHi1 .completed =
      ⟨.success (md5Hash bodyHi1), insert (md5Hash bodyHi1) cache100, true⟩ :=
  post_completed (by decide)
    (fileWithKeyExists_eq_false.mpr (md5Hash_not_mem_cache100 _))
    (limit_not_reached (le_of_eq cache100_card))

/-- On the empty directory, the valid request synthesizes and stores its key. -/
theorem post_empty_hi1 :
    postText2Speech ∅ bodyHi1 .completed =
      ⟨.success (md5Hash bodyHi1), insert (md5Hash bodyHi1) ∅, true⟩ :=
  post_completed (by decide)
    (fileWithKeyExists_eq_false.mpr (Finset.not_mem_empty _))
    (limit_not_reached (by simp [FILE_LIMIT]))

/-! ### The claims -/

/-- C1, counterexample: with the cache count exactly at the configured
maximum (100) and a valid cache-miss request, the create operation does NOT
terminate in CapacityExceeded — the guard is `count > FILE_LIMIT`, so the
request proceeds to invoke synthesis. -/
theorem C1_cex :
    cache100.card = FILE_LIMIT ∧
    requestValid bodyHi1 = true ∧
    fileWithKeyExists cache100 (md5Hash bodyHi1) = false ∧
    (postText2Speech cache100 bodyHi1 .completed).response ≠ .capacityExceeded ∧
    (postText2Speech cache100 bodyHi1 .completed).synthCalled = true := by
  refine ⟨cache100_card, by decide,
    fileWithKeyExists_eq_false.mpr (md5Hash_not_mem_cache100 _), ?_, ?_⟩
  · rw [post_cache100_hi1]
    simp
  · rw [post_cache100_hi1]

/-- C1, amended: when the number of cached entries strictly exceeds the
configured maximum (100), a valid cache-miss create terminates in
CapacityExceeded without invoking synthesis, while a valid cache-hit create
still terminates in Success with the cached key regardless of the count. -/
theorem C1_thm : ∀ (cache : CacheDir) (b : Body) (s : SynthOutcome),
    requestValid b = true →
    (fileWithKeyExists cache (md5Hash b) = false → FILE_LIMIT < cache.card →
      postText2Speech cache b s = ⟨.capacityExceeded, cache, false⟩) ∧
    (fileWithKeyExists cache (md5Hash b) = true →
      postText2Speech cache b s = ⟨.success (md5Hash b), cache, false⟩) :=
  fun _ _ _ hv =>
    ⟨fun he hc => post_capacity hv he (limit_reached_iff.mpr hc),
     fun he => post_hit hv he⟩

/-- C1, witness: on a 101-entry directory the cache-miss create is rejected
with CapacityExceeded; on a directory holding exactly the request's key, the
create returns that key. -/
theorem C1_witness :
    postText2Speech cache101 bodyHi1 .completed = ⟨.capacityExceeded, cache101, false⟩ ∧
    postText2Speech {md5Hash bodyHi1} bodyHi1 .completed =
      ⟨.success (md5Hash bodyHi1), {md5Hash bodyHi1}, false⟩ :=
  ⟨(C1_thm cache101 bodyHi1 .completed (by decide)).1
      (fileWithKeyExists_eq_false.mpr (md5Hash_not_mem_cache101 _))
      (by rw [cache101_card]; decide),
   (C1_thm {md5Hash bodyHi1} bodyHi1 .completed (by decide)).2
      (fileWithKeyExists_iff.mpr (Finset.mem_singleton_self _))⟩

/-- C2, counterexample: from a directory with exactly 100 entries (≤ 100),
one create of a valid cache-miss request yields a directory with 101 > 100
entries, violating the claimed `≤ 100` invariant. -/
theorem C2_cex :
    cache100.card ≤ 100 ∧
    100 < (runOps cache100 [ApiOp.create bodyHi1 .completed]).card := by
  refine ⟨le_of_eq cache100_card, ?_⟩
  show 100 < (postText2Speech cache100 bodyHi1 .completed).cache.card
  rw [post_cache100_hi1]
  show 100 < (insert (md5Hash bodyHi1) cache100).card
  rw [Finset.card_insert_of_not_mem (md5Hash_not_mem_cache100 _), cache100_card]
  omega

/-- C2, amended: the cache directory's cardinality never exceeds
`FILE_LIMIT + 1 = 101`: starting from any state with at most 101 entries, no
sequence of create and delete operations produces more than 101 entries (the
guard `count > FILE_LIMIT` admits one write at count 100). -/
theorem C2_thm : ∀ (cache : CacheDir) (ops : List ApiOp),
    cache.card ≤ FILE_LIMIT + 1 → (runOps cache ops).card ≤ FILE_LIMIT + 1 :=
  fun _ ops h => runOps_card_le ops h

/-- C2, witness: a create-then-delete sequence from the 101-entry directory
stays within the 101-entry bound. -/
theorem C2_witness :
    cache101.card ≤ FILE_LIMIT + 1 ∧
    (runOps cache101 [ApiOp.create bodyHi1 .completed, ApiOp.remove "0"]).card ≤
      FILE_LIMIT + 1 :=
  ⟨by rw [cache101_card]; decide,
   C2_thm cache101 [ApiOp.create bodyHi1 .completed, ApiOp.remove "0"]
     (by rw [cache101_card]; decide)⟩

/-- C3, counterexample: two requests with identical `text` field and
identical `voice` field, but serialized in a different field order, receive
different fingerprints — the hash covers `JSON.stringify(req.body)`, which is
order-sensitive, so the fingerprint is not a function of the logical request. -/
theorem C3_cex :
    getField bodyHi1 "text" = getField bodyHi2 "text" ∧
    getField bodyHi1 "voice" = getField bodyHi2 "voice" ∧
    md5Hash bodyHi1 ≠ md5Hash bodyHi2 :=
  ⟨by decide, by decide, hash_bodyHi_ne⟩

/-- C3, amended: the fingerprint is a deterministic function of the
serialized request body — two bodies with equal `JSON.stringify` output have
equal fingerprints, and differing voice values can and do yield different
fingerprints (witnessed on voices "a" vs "b") — but it is not a function of
the logical (text, voice) pair alone: field order changes the fingerprint. -/
theorem C3_thm :
    (∀ b1 b2 : Body, jsonStringify b1 = jsonStringify b2 → md5Hash b1 = md5Hash b2) ∧
    md5Hash bodyVoiceA ≠ md5Hash bodyVoiceB :=
  ⟨fun _ _ h => by unfold md5Hash; rw [h], hash_voiceAB_ne⟩

/-- C3, witness: the determinism part applied to a concrete body. -/
theorem C3_witness :
    jsonStringify bodyHi1 = jsonStringify bodyHi1 ∧ md5Hash bodyHi1 = md5Hash bodyHi1 :=
  ⟨rfl, C3_thm.1 bodyHi1 bodyHi1 rfl⟩

/-- C4, counterexample: two submissions with identical `text` and `voice`
fields but different field order are both cache misses: each invokes the
synthesis gateway and they return different fileKeys — two synthesis calls in
total for the same logical input. -/
theorem C4_cex :
    getField bodyHi1 "text" = getField bodyHi2 "text" ∧
    getField bodyHi1 "voice" = getField bodyHi2 "voice" ∧
    (postText2Speech ∅ bodyHi1 .completed).response = .success (md5Hash bodyHi1) ∧
    (postText2Speech ∅ bodyHi1 .completed).synthCalled = true ∧
    (postText2Speech (postText2Speech ∅ bodyHi1 .completed).cache bodyHi2
        .completed).response = .success (md5Hash bodyHi2) ∧
    (postText2Speech (postText2Speech ∅ bodyHi1 .completed).cache bodyHi2
        .completed).synthCalled = true ∧
    md5Hash bodyHi1 ≠ md5Hash bodyHi2 := by
  have h2 : postText2Speech (insert (md5Hash bodyHi1) ∅) bodyHi2 .completed =
      ⟨.success (md5Hash bodyHi2), insert (md5Hash bodyHi2) (insert (md5Hash bodyHi1) ∅),
        true⟩ := by
    apply post_completed (by decide)
    · rw [fileWithKeyExists_eq_false]
      intro hmem
      rcases Finset.mem_insert.mp hmem with h | h
      · exact hash_bodyHi_ne h.symm
      · exact Finset.not_mem_empty _ h
    · apply limit_not_reached
      rw [Finset.card_insert_of_not_mem (Finset.not_mem_empty _)]
      simp [FILE_LIMIT]
  refine ⟨by decide, by decide, ?_, ?_, ?_, ?_, hash_bodyHi_ne⟩
  · rw [post_empty_hi1]
  · rw [post_empty_hi1]
  · rw [post_empty_hi1]
    show (postText2Speech (insert (md5Hash bodyHi1) ∅) bodyHi2 .completed).response = _
    rw [h2]
  · rw [post_empty_hi1]
    show (postText2Speech (insert (md5Hash bodyHi1) ∅) bodyHi2 .completed).synthCalled = _
    rw [h2]

/-- C4, amended: a valid create whose fingerprint is already cached returns
Success with that key without invoking synthesis; hence repeated submissions
of the byte-identical body return the same fileKey and perform at most one
synthesis call in total (after any successful create, resubmitting the same
body is answered from the cache). -/
theorem C4_thm :
    (∀ (cache : CacheDir) (b : Body) (s : SynthOutcome),
        requestValid b = true → fileWithKeyExists cache (md5Hash b) = true →
        postText2Speech cache b s = ⟨.success (md5Hash b), cache, false⟩) ∧
    (∀ (cache : CacheDir) (b : Body) (s1 s2 : SynthOutcome) (k : String),
        (postText2Speech cache b s1).response = .success k →
        postText2Speech (postText2Speech cache b s1).cache b s2 =
          ⟨.success k, (postText2Speech cache b s1).cache, false⟩) := by
  refine ⟨fun _ b s hv he => post_hit hv he, ?_⟩
  intro cache b s1 s2 k hresp
  cases hv : requestValid b with
  | false => rw [post_invalid hv] at hresp ⊢; exact absurd hresp (by simp)
  | true =>
    cases he : fileWithKeyExists cache (md5Hash b) with
    | true =>
      rw [post_hit hv he] at hresp ⊢
      obtain rfl : md5Hash b = k := by simpa using hresp
      exact post_hit hv he
    | false =>
      cases hl : hasGeneratedFileLimitBeenReached cache with
      | true => rw [post_capacity hv he hl] at hresp; exact absurd hresp (by simp)
      | false =>
        cases s1 with
        | completed =>
          rw [post_completed hv he hl] at hresp ⊢
          obtain rfl : md5Hash b = k := by simpa using hresp
          exact post_hit hv
            (fileWithKeyExists_iff.mpr (Finset.mem_insert_self _ _))
        | otherReason =>
          rw [post_failed hv he hl (by decide)] at hresp
          exact absurd hresp (by simp)
        | errorCallback =>
          rw [post_failed hv he hl (by decide)] at hresp
          exact absurd hresp (by simp)

/-- C4, witness: the cache-hit clause on a singleton directory, and the
resubmission clause after a successful create from the empty directory. -/
theorem C4_witness :
    postText2Speech {md5Hash bodyHi1} bodyHi1 .otherReason =
      ⟨.success (md5Hash bodyHi1), {md5Hash bodyHi1}, false⟩ ∧
    postText2Speech (postText2Speech ∅ bodyHi1 .completed).cache bodyHi1 .completed =
      ⟨.success (md5Hash bodyHi1), (postText2Speech ∅ bodyHi1 .completed).cache, false⟩ :=
  ⟨C4_thm.1 {md5Hash bodyHi1} bodyHi1 .otherReason (by decide)
      (fileWithKeyExists_iff.mpr (Finset.mem_singleton_self _)),
   C4_thm.2 ∅ bodyHi1 .completed .completed (md5Hash bodyHi1)
      (by rw [post_empty_hi1])⟩

/-- C5, counterexample: a request whose `voice` is a 51-character string (and
whose `text` is valid) is NOT rejected — `check('voice').optional().isString()`
imposes no length bound, so the request proceeds to synthesis and succeeds. -/
theorem C5_cex :
    getField bodyLongVoice "voice" = some voice51 ∧
    voice51.length = 51 ∧
    (postText2Speech ∅ bodyLongVoice .completed).response = .success (md5Hash bodyLongVoice) ∧
    (postText2Speech ∅ bodyLongVoice .completed).synthCalled = true := by
  have h : postText2Speech ∅ bodyLongVoice .completed =
      ⟨.success (md5Hash bodyLongVoice), insert (md5Hash bodyLongVoice) ∅, true⟩ :=
    post_completed (by decide)
      (fileWithKeyExists_eq_false.mpr (Finset.not_mem_empty _))
      (limit_not_reached (by simp [FILE_LIMIT]))
  refine ⟨by decide, by decide, ?_, ?_⟩ <;> rw [h]

/-- C5, amended: the `voice` field is never a reason for rejection — any
present string voice passes validation, so with valid `text` the operation
does not terminate in InvalidInput; a request whose `text` is absent, empty,
or longer than 100 characters terminates in InvalidInput with the directory
unchanged and no synthesis invocation. -/
theorem C5_thm :
    (∀ (cache : CacheDir) (b : Body) (s : SynthOutcome),
        (getField b "text" = none ∨ getField b "text" = some "" ∨
          (∃ t, getField b "text" = some t ∧ 100 < t.length)) →
        postText2Speech cache b s = ⟨.invalidInput, cache, false⟩) ∧
    (∀ (cache : CacheDir) (b : Body) (s : SynthOutcome) (v : String),
        getField b "voice" = some v → textFieldValid b = true →
        (postText2Speech cache b s).response ≠ .invalidInput) := by
  constructor
  · intro cache b s h
    apply post_invalid
    rw [requestValid_eq_text]
    rcases h with h | h | ⟨t, ht, hlen⟩
    · simp [textFieldValid, h]
    · simp [textFieldValid, h]
    · simp only [textFieldValid, ht, Bool.and_eq_false_imp]
      intro
      simpa using hlen
  · intro cache b s v _hv htext
    have hv : requestValid b = true := by rw [requestValid_eq_text]; exact htext
    cases he : fileWithKeyExists cache (md5Hash b) with
    | true => rw [post_hit hv he]; simp
    | false =>
      cases hl : hasGeneratedFileLimitBeenReached cache with
      | true => rw [post_capacity hv he hl]; simp
      | false =>
        cases s with
        | completed => rw [post_completed hv he hl]; simp
        | otherReason => rw [post_failed hv he hl (by decide)]; simp
        | errorCallback => rw [post_failed hv he hl (by decide)]; simp

/-- C5, witness: a body with no `text` field is rejected; the long-voice body
with valid text is not rejected. -/
theorem C5_witness :
    postText2Speech ∅ bodyNoText .completed = ⟨.invalidInput, ∅, false⟩ ∧
    (postText2Speech ∅ bodyLongVoice .completed).response ≠ .invalidInput :=
  ⟨C5_thm.1 ∅ bodyNoText .completed (Or.inl (by decide)),
   C5_thm.2 ∅ bodyLongVoice .completed voice51 (by decide) (by decide)⟩

/-- C6: when the synthesis gateway fails (a non-completed result reason or
the error callback), the create terminates in SynthesisFailed with the cache
directory unchanged — no entry under the request's fingerprint; and an entry
is ever added only by a create whose synthesis call completed successfully
(the gateway, an external collaborator, produces the file only on
`SynthesizingAudioCompleted`). -/
theorem C6_thm :
    (∀ (cache : CacheDir) (b : Body) (s : SynthOutcome),
        requestValid b = true → fileWithKeyExists cache (md5Hash b) = false →
        hasGeneratedFileLimitBeenReached cache = false → s ≠ .completed →
        postText2Speech cache b s = ⟨.synthesisFailed, cache, true⟩ ∧
          md5Hash b ∉ cache) ∧
    (∀ (cache : CacheDir) (b : Body) (s : SynthOutcome),
        (postText2Speech cache b s).cache ≠ cache →
        s = .completed ∧
          (postText2Speech cache b s).response = .success (md5Hash b) ∧
          (postText2Speech cache b s).cache = insert (md5Hash b) cache) := by
  constructor
  · intro cache b s hv he hl hs
    exact ⟨post_failed hv he hl hs, fileWithKeyExists_eq_false.mp he⟩
  · intro cache b s hne
    cases hv : requestValid b with
    | false => rw [post_invalid hv] at hne; exact absurd rfl hne
    | true =>
      cases he : fileWithKeyExists cache (md5Hash b) with
      | true => rw [post_hit hv he] at hne; exact absurd rfl hne
      | false =>
        cases hl : hasGeneratedFileLimitBeenReached cache with
        | true => rw [post_capacity hv he hl] at hne; exact absurd rfl hne
        | false =>
          cases s with
          | completed => rw [post_completed hv he hl]; exact ⟨rfl, rfl, rfl⟩
          | otherReason => rw [post_failed hv he hl (by decide)] at hne; exact absurd rfl hne
          | errorCallback => rw [post_failed hv he hl (by decide)] at hne; exact absurd rfl hne

/-- C6, witness: a failing synthesis on the empty directory returns 500 and
stores nothing; the only cache-changing run is a completed synthesis. -/
theorem C6_witness :
    (postText2Speech ∅ bodyHi1 .errorCallback = ⟨.synthesisFailed, ∅, true⟩ ∧
      md5Hash bodyHi1 ∉ (∅ : CacheDir)) ∧
    (SynthOutcome.completed = SynthOutcome.completed ∧
      (postText2Speech ∅ bodyHi1 .completed).response = .success (md5Hash bodyHi1) ∧
      (postText2Speech ∅ bodyHi1 .completed).cache = insert (md5Hash bodyHi1) ∅) :=
  ⟨C6_thm.1 ∅ bodyHi1 .errorCallback (by decide)
      (fileWithKeyExists_eq_false.mpr (Finset.not_mem_empty _))
      (limit_not_reached (by simp [FILE_LIMIT])) (by decide),
   C6_thm.2 ∅ bodyHi1 .completed
      (by rw [post_empty_hi1]; exact Finset.insert_ne_empty _ _)⟩

/-- C7: the existence check is a total boolean function of the directory (in
the code every lookup failure is caught and reported as `false`), and the
GET handler answers 400 — never a crash — both for a key that fails the
`isMD5` shape check and for a well-formed key with no stored entry, leaving
the directory unchanged. -/
theorem C7_thm :
    (∀ (cache : CacheDir) (k : String), isMD5 k = false →
        getText2Speech cache k = (.badRequest, cache)) ∧
    (∀ (cache : CacheDir) (k : String), k ∉ cache →
        getText2Speech cache k = (.badRequest, cache)) := by
  constructor
  · intro cache k h
    simp [getText2Speech, h]
  · intro cache k h
    simp [getText2Speech, fileWithKeyExists_eq_false.mpr h]

/-- C7, witness: a malformed key and a never-stored well-formed key both get
a 400 from the GET route. -/
theorem C7_witness :
    getText2Speech ∅ "not-a-valid-key" = (.badRequest, ∅) ∧
    getText2Speech ∅ "00000000000000000000000000000000" = (.badRequest, ∅) :=
  ⟨C7_thm.1 ∅ "not-a-valid-key" (by decide),
   C7_thm.2 ∅ "00000000000000000000000000000000" (Finset.not_mem_empty _)⟩

/-- C8: DELETE with a malformed key, or a well-formed key with no entry,
answers 400 and leaves the directory unchanged; DELETE with a (well-formed)
key of an existing entry removes that entry and answers 200.  Stored keys are
always well-formed: every fingerprint passes `isMD5` (see `md5Hash_isMD5`). -/
theorem C8_thm :
    (∀ (cache : CacheDir) (k : String), isMD5 k = false →
        deleteText2Speech cache k = (.badRequest, cache)) ∧
    (∀ (cache : CacheDir) (k : String), k ∉ cache →
        deleteText2Speech cache k = (.badRequest, cache)) ∧
    (∀ (cache : CacheDir) (k : String), isMD5 k = true → k ∈ cache →
        deleteText2Speech cache k = (.ok, cache.erase k)) := by
  refine ⟨?_, ?_, ?_⟩
  · intro cache k h
    simp [deleteText2Speech, h]
  · intro cache k h
    simp [deleteText2Speech, fileWithKeyExists_eq_false.mpr h]
  · intro cache k h hm
    simp [deleteText2Speech, h, fileWithKeyExists_iff.mpr hm]

/-- C8, witness: the three DELETE clauses at concrete inputs (the existing
entry being a real fingerprint). -/
theorem C8_witness :
    deleteText2Speech ∅ "not-a-valid-key" = (.badRequest, ∅) ∧
    deleteText2Speech ∅ "00000000000000000000000000000000" = (.badRequest, ∅) ∧
    deleteText2Speech {md5Hash bodyHi1} (md5Hash bodyHi1) =
      (.ok, ({md5Hash bodyHi1} : CacheDir).erase (md5Hash bodyHi1)) :=
  ⟨C8_thm.1 ∅ "not-a-valid-key" (by decide),
   C8_thm.2.1 ∅ "00000000000000000000000000000000" (Finset.not_mem_empty _),
   C8_thm.2.2 {md5Hash bodyHi1} (md5Hash bodyHi1) (md5Hash_isMD5 bodyHi1)
     (Finset.mem_singleton_self _)⟩

/-- C9: immediately after a successful DELETE of the fingerprint of a valid
body, the existence check for that key is false, and resubmitting the same
body is a cache miss that invokes the synthesis gateway again (the cardinality
hypothesis `≤ FILE_LIMIT + 1` is the bound the code maintains on reachable
directories, so after the delete the capacity guard cannot fire). -/
theorem C9_thm : ∀ (cache : CacheDir) (b : Body) (s : SynthOutcome),
    requestValid b = true → md5Hash b ∈ cache → cache.card ≤ FILE_LIMIT + 1 →
    deleteText2Speech cache (md5Hash b) = (.ok, cache.erase (md5Hash b)) ∧
    fileWithKeyExists (cache.erase (md5Hash b)) (md5Hash b) = false ∧
    (postText2Speech (cache.erase (md5Hash b)) b s).synthCalled = true ∧
    (s = .completed →
      postText2Speech (cache.erase (md5Hash b)) b s =
        ⟨.success (md5Hash b), insert (md5Hash b) (cache.erase (md5Hash b)), true⟩) := by
  intro cache b s hv hm hc
  have hdel : deleteText2Speech cache (md5Hash b) = (.ok, cache.erase (md5Hash b)) := by
    simp [deleteText2Speech, md5Hash_isMD5 b, fileWithKeyExists_iff.mpr hm]
  have hex : fileWithKeyExists (cache.erase (md5Hash b)) (md5Hash b) = false :=
    fileWithKeyExists_eq_false.mpr (Finset.not_mem_erase _ _)
  have hl : hasGeneratedFileLimitBeenReached (cache.erase (md5Hash b)) = false := by
    apply limit_not_reached
    rw [Finset.card_erase_of_mem hm]
    omega
  refine ⟨hdel, hex, ?_, fun hs => by rw [hs, post_completed hv hex hl]⟩
  cases s with
  | completed => rw [post_completed hv hex hl]
  | otherReason => rw [post_failed hv hex hl (by decide)]
  | errorCallback => rw [post_failed hv hex hl (by decide)]

/-- C9, witness: delete-then-recreate of the concrete request's fingerprint
on the singleton directory. -/
theorem C9_witness :
    deleteText2Speech {md5Hash bodyHi1} (md5Hash bodyHi1) =
      (.ok, ({md5Hash bodyHi1} : CacheDir).erase (md5Hash bodyHi1)) ∧
    fileWithKeyExists (({md5Hash bodyHi1} : CacheDir).erase (md5Hash bodyHi1))
      (md5Hash bodyHi1) = false ∧
    (postText2Speech (({md5Hash bodyHi1} : CacheDir).erase (md5Hash bodyHi1)) bodyHi1
        .completed).synthCalled = true ∧
    (SynthOutcome.completed = SynthOutcome.completed →
      postText2Speech (({md5Hash bodyHi1} : CacheDir).erase (md5Hash bodyHi1)) bodyHi1
          .completed =
        ⟨.success (md5Hash bodyHi1),
          insert (md5Hash bodyHi1) (({md5Hash bodyHi1} : CacheDir).erase (md5Hash bodyHi1)),
          true⟩) :=
  C9_thm {md5Hash bodyHi1} bodyHi1 .completed (by decide)
    (Finset.mem_singleton_self _)
    (by rw [Finset.card_singleton]; simp [FILE_LIMIT])

/-- C10: each operation touches at most the entry named by its key — the
create either leaves the directory unchanged or inserts exactly its
fingerprint (one new entry) leaving every other key's membership unchanged;
the delete either leaves the directory unchanged (on 400) or removes exactly
the named key (on 200); fetch-by-key and list-keys never change the
directory. -/
theorem C10_thm :
    (∀ (cache : CacheDir) (b : Body) (s : SynthOutcome),
        ((postText2Speech cache b s).cache = cache ∨
          ((postText2Speech cache b s).cache = insert (md5Hash b) cache ∧
            md5Hash b ∉ cache ∧
            (postText2Speech cache b s).cache.card = cache.card + 1)) ∧
        (∀ x, x ≠ md5Hash b →
          (x ∈ (postText2Speech cache b s).cache ↔ x ∈ cache))) ∧
    (∀ (cache : CacheDir) (k : String),
        ((deleteText2Speech cache k).2 = cache ∨
          ((deleteText2Speech cache k).1 = .ok ∧
            (deleteText2Speech cache k).2 = cache.erase k ∧
            k ∉ (deleteText2Speech cache k).2)) ∧
        (∀ x, x ≠ k → (x ∈ (deleteText2Speech cache k).2 ↔ x ∈ cache))) ∧
    (∀ (cache : CacheDir) (k : String), (getText2Speech cache k).2 = cache) ∧
    (∀ cache : CacheDir,
        (listText2Speech cache).1 = cache ∧ (listText2Speech cache).2 = cache) := by
  refine ⟨?_, ?_, ?_, fun _ => ⟨rfl, rfl⟩⟩
  · intro cache b s
    cases hv : requestValid b with
    | false => rw [post_invalid hv]; exact ⟨Or.inl rfl, fun _ _ => Iff.rfl⟩
    | true =>
      cases he : fileWithKeyExists cache (md5Hash b) with
      | true => rw [post_hit hv he]; exact ⟨Or.inl rfl, fun _ _ => Iff.rfl⟩
      | false =>
        have hnm : md5Hash b ∉ cache := fileWithKeyExists_eq_false.mp he
        cases hl : hasGeneratedFileLimitBeenReached cache with
        | true => rw [post_capacity hv he hl]; exact ⟨Or.inl rfl, fun _ _ => Iff.rfl⟩
        | false =>
          cases s with
          | completed =>
            rw [post_completed hv he hl]
            refine ⟨Or.inr ⟨rfl, hnm, Finset.card_insert_of_not_mem hnm⟩, ?_⟩
            intro x hx
            simp [Finset.mem_insert, hx]
          | otherReason =>
            rw [post_failed hv he hl (by decide)]
            exact ⟨Or.inl rfl, fun _ _ => Iff.rfl⟩
          | errorCallback =>
            rw [post_failed hv he hl (by decide)]
            exact ⟨Or.inl rfl, fun _ _ => Iff.rfl⟩
  · intro cache k
    rw [deleteText2Speech]
    split
    · refine ⟨Or.inr ⟨rfl, rfl, Finset.not_mem_erase _ _⟩, ?_⟩
      intro x hx
      simp [Finset.mem_erase, hx]
    · exact ⟨Or.inl rfl, fun _ _ => Iff.rfl⟩
  · intro cache k
    rw [getText2Speech]
    split <;> rfl

/-- C10, witness: the frame clauses applied at concrete keys and states. -/
theorem C10_witness :
    ("zz" ∈ (postText2Speech ∅ bodyHi1 .completed).cache ↔ "zz" ∈ (∅ : CacheDir)) ∧
    ("zz" ∈ (deleteText2Speech {"aa"} "aa").2 ↔ "zz" ∈ ({"aa"} : CacheDir)) ∧
    (getText2Speech ∅ "zz").2 = ∅ ∧
    (listText2Speech ∅).1 = ∅ :=
  ⟨(C10_thm.1 ∅ bodyHi1 .completed).2 "zz"
      (ne_of_length_ne (by rw [md5Hash_length]; decide)),
   (C10_thm.2.1 {"aa"} "aa").2 "zz" (by decide),
   C10_thm.2.2.1 ∅ "zz",
   (C10_thm.2.2.2 ∅).1⟩

end T2S
